import Mathlib

/-!
Shallow embedding of the `atl-thunk` crate (`src/lib.rs`): a Rust wrapper of
the Windows ATL thunk type.  The four `AtlThunk_*` primitives live in
`atlthunk.dll`, outside this repository; they are modelled from the spec's
contracts (sections 4.1-4.3) as explicit state transformers over `SysState`.
The wrapper type `AtlThunk` and its methods `try_new`, `try_new_with`,
`as_window_procedure`, `set_data` and `Drop::drop` are translated directly
from the source.
-/

/-- A machine address (pointer bit pattern); `0` is the null pointer. -/
abbrev Addr := Nat

/-- The `HWND` type of the `windows` crate: a pointer-sized value used as an
opaque handle; modelled by its bit pattern. -/
structure HWND where
  bits : Nat
deriving DecidableEq

/-- A `WindowProcedure` value (`unsafe extern "system" fn(HWND, u32, WPARAM, LPARAM) -> LRESULT`)
is modelled by the address of the function it points to.  This Lean model
ranges over all of `Nat`; the Rust type at src/lib.rs line 44 is a bare
function pointer whose values are exactly the non-null addresses — see
`rustWindowProcedureDomain`. -/
abbrev WindowProcedure := Addr

/-- The value domain of the Rust `WindowProcedure` type (src/lib.rs
line 44): it is a bare `unsafe extern "system" fn` pointer — not wrapped in
`Option` the way the nullable `WNDPROC` at line 35 is — and Rust function
pointers are guaranteed non-null, so the addresses a Rust caller can pass
to `set_data`/`try_new_with` are exactly the non-null ones. -/
def rustWindowProcedureDomain (p : WindowProcedure) : Prop := p ≠ 0

/-- `mem::transmute::<WindowProcedure, *mut c_void>`: reinterpretation of a
function pointer as a data pointer, identity on the address bits
(src/lib.rs line 98). -/
def transmuteProcToPtr (p : WindowProcedure) : Addr := p

/-- `mem::transmute::<HWND, usize>`: reinterpretation of the handle as a
pointer-width unsigned integer, identity on the bit pattern
(src/lib.rs line 100). -/
def transmuteHwndToUsize (h : HWND) : Nat := h.bits

/-- The (target function address, constant first parameter) pair currently
encoded into a thunk data block. -/
structure ThunkBinding where
  procedure : Addr
  firstParameter : Nat
deriving DecidableEq

/-- Modelled from the spec: process-level state of the ATL thunk primitives.
`allocPlan` is the sequence of block addresses the executable-memory provider
will hand out (`0` models an allocation failure); `blocks` maps each live
block address to its current binding (`none` = allocated but unbound);
`allocCalls` counts calls of `AtlThunk_AllocateData`; `initLog` and
`freedLog` record the arguments of every `AtlThunk_InitData` and
`AtlThunk_FreeData` call, in order. -/
structure SysState where
  allocPlan : List Addr
  blocks : List (Addr × Option ThunkBinding)
  allocCalls : Nat
  initLog : List (Addr × ThunkBinding)
  freedLog : List Addr
deriving DecidableEq

/-- Look up the state of the block at address `p` (first match). -/
def lookupBlock : List (Addr × Option ThunkBinding) → Addr → Option (Option ThunkBinding)
  | [], _ => none
  | e :: rest, p => if e.1 = p then some e.2 else lookupBlock rest p

/-- Overwrite, in place, the binding of the block at address `p`. -/
def updateBlock (bs : List (Addr × Option ThunkBinding)) (p : Addr) (b : ThunkBinding) :
    List (Addr × Option ThunkBinding) :=
  bs.map fun e => if e.1 = p then (e.1, some b) else e

/-- Modelled from the spec: `AtlThunk_AllocateData` (declared at src/lib.rs
line 32, body in `atlthunk.dll`).  Takes the next planned outcome: a nonzero
address yields a fresh unbound block at a stable address; `0` (or an
exhausted plan) models the provider failing and returning null, with no
partial allocation observable. -/
def AtlThunk_AllocateData (s : SysState) : Addr × SysState :=
  match s.allocPlan with
  | [] => (0, { s with allocCalls := s.allocCalls + 1 })
  | p :: rest =>
    if p = 0 then
      (0, { s with allocPlan := rest, allocCalls := s.allocCalls + 1 })
    else
      (p, { s with allocPlan := rest, allocCalls := s.allocCalls + 1,
                   blocks := s.blocks ++ [(p, none)] })

/-- Modelled from the spec: `AtlThunk_InitData` (declared at src/lib.rs
line 41, body in `atlthunk.dll`).  Encodes the (procedure, first parameter)
binding into the block in place; infallible, no allocation. -/
def AtlThunk_InitData (thunk : Addr) (procAddr : Addr) (first_parameter : Nat)
    (s : SysState) : SysState :=
  { s with blocks := updateBlock s.blocks thunk ⟨procAddr, first_parameter⟩,
           initLog := s.initLog ++ [(thunk, ⟨procAddr, first_parameter⟩)] }

/-- The entry pointer of a trampoline: the externally invokable code address,
identified with the address of its data block (the data-to-code map is a
fixed bijection and the block never relocates). -/
structure EntryPointer where
  code : Addr
deriving DecidableEq

/-- Modelled from the spec: `AtlThunk_DataToCode` (declared at src/lib.rs
line 35, body in `atlthunk.dll`).  A pure address computation returning
`WNDPROC` (an optional function pointer); it yields a usable pointer for
every existing (non-null) block and null only for null input. -/
def AtlThunk_DataToCode (thunk : Addr) : Option EntryPointer :=
  if thunk = 0 then none else some ⟨thunk⟩

/-- Modelled from the spec: `AtlThunk_FreeData` (declared at src/lib.rs
line 38, body in `atlthunk.dll`).  Returns the block's memory to the system. -/
def AtlThunk_FreeData (thunk : Addr) (s : SysState) : SysState :=
  { s with blocks := s.blocks.filter (fun e => e.1 ≠ thunk),
           freedLog := s.freedLog ++ [thunk] }

/-- The semantics of a target function: given the first parameter (as the
bit pattern the trampoline delivers), the message, `WPARAM` and `LPARAM`,
produce the `LRESULT`. -/
abbrev TargetFn := Nat → Nat → Nat → Int → Int

/-- The executable code present in the process, as a partial map from
function addresses to their semantics; `none` means no function lives at
that address (invoking it is a fatal fault). -/
abbrev CodeTable := Addr → Option TargetFn

/-- A code table is valid when no function lives at the null address. -/
def validCodeTable (table : CodeTable) : Prop := table 0 = none

/-- Modelled from the spec: invoking a trampoline's entry pointer with
OS-supplied arguments `(hwnd, message, wParam, lParam)`.  The trampoline
substitutes the bound constant for the leading parameter, forwards the
trailing arguments unchanged and tail-calls the bound target; its return
value is the target's return value.  Invoking a freed or unbound block, or
a block bound to an address holding no function, is a fault (`none`). -/
def invokeEntry (table : CodeTable) (s : SysState) (e : EntryPointer)
    (_hwnd : HWND) (message : Nat) (wParam : Nat) (lParam : Int) : Option Int :=
  match lookupBlock s.blocks e.code with
  | some (some b) =>
    match table b.procedure with
    | some f => some (f b.firstParameter message wParam lParam)
    | none => none
  | _ => none

/-- `core::ptr::NonNull`: an address together with the invariant that it is
not null. -/
structure NonNullAddr where
  addr : Addr
  nonnull : addr ≠ 0

/-- `NonNull::new`: `some` exactly on non-null addresses. -/
def nonNullNew (a : Addr) : Option NonNullAddr :=
  if h : a = 0 then none else some ⟨a, h⟩

/-- The error type of `::windows::core::Result`; `fromThread` stands for
`Error::from_thread()` (src/lib.rs line 58). -/
inductive WinError where
  | fromThread
deriving DecidableEq

/-- The `AtlThunk` wrapper type (src/lib.rs lines 49-51): it owns a non-null
pointer to its thunk data block. -/
structure AtlThunk where
  raw_thunk_ptr : NonNullAddr

/-- `AtlThunk::try_new` (src/lib.rs lines 56-61): calls
`AtlThunk_AllocateData`; a null result becomes `Err(Error::from_thread())`,
otherwise the non-null pointer is wrapped into a handle. -/
def AtlThunk.try_new (s : SysState) : Except WinError AtlThunk × SysState :=
  match nonNullNew (AtlThunk_AllocateData s).1 with
  | none => (Except.error WinError.fromThread, (AtlThunk_AllocateData s).2)
  | some raw_thunk_ptr => (Except.ok ⟨raw_thunk_ptr⟩, (AtlThunk_AllocateData s).2)

/-- `AtlThunk::set_data` (src/lib.rs lines 95-104): transmutes the procedure
to a raw pointer and the `HWND` to `usize`, then calls `AtlThunk_InitData`
on the handle's block.  Takes `&mut self`; the returned handle is the state
of `self` after the call (the method never writes `raw_thunk_ptr`). -/
def AtlThunk.set_data (self : AtlThunk) (window_procedure : WindowProcedure)
    (first_parameter : HWND) (s : SysState) : AtlThunk × SysState :=
  (self,
   AtlThunk_InitData self.raw_thunk_ptr.addr (transmuteProcToPtr window_procedure)
     (transmuteHwndToUsize first_parameter) s)

/-- `AtlThunk::try_new_with` (src/lib.rs lines 68-76): `try_new`, then, on
success, `set_data` on the fresh handle; an allocation error is returned
unchanged. -/
def AtlThunk.try_new_with (window_procedure : WindowProcedure) (first_parameter : HWND)
    (s : SysState) : Except WinError AtlThunk × SysState :=
  match AtlThunk.try_new s with
  | (Except.ok thunk, s1) =>
    let r := AtlThunk.set_data thunk window_procedure first_parameter s1
    (Except.ok r.1, r.2)
  | (Except.error e, s1) => (Except.error e, s1)

/-- `Option::unwrap_unchecked` on `WNDPROC`: the caller guarantees `some`;
the `none` branch is undefined behaviour, modelled by the null entry
pointer. -/
def unwrapUnchecked (o : Option EntryPointer) : EntryPointer := o.getD ⟨0⟩

/-- `AtlThunk::as_window_procedure` (src/lib.rs lines 88-90):
`AtlThunk_DataToCode(self.raw_thunk_ptr.as_ptr()).unwrap_unchecked()`. -/
def AtlThunk.as_window_procedure (self : AtlThunk) : EntryPointer :=
  unwrapUnchecked (AtlThunk_DataToCode self.raw_thunk_ptr.addr)

/-- `impl Drop for AtlThunk` (src/lib.rs lines 111-113): calls
`AtlThunk_FreeData` on the handle's block pointer. -/
def AtlThunk.drop (self : AtlThunk) (s : SysState) : SysState :=
  AtlThunk_FreeData self.raw_thunk_ptr.addr s

/-- The addresses of the live blocks, in order. -/
def blockAddrs (s : SysState) : List Addr := s.blocks.map Prod.fst

/- ### Concrete fixtures (the scenario of `tests::test_thunk_try_new_with`) -/

/-- The semantics of the test's `callback_1`: observes `(2, 3, 5, 7)` and
returns `11`. -/
def callback_1 : TargetFn := fun c m w l =>
  if c = 2 ∧ m = 3 ∧ w = 5 ∧ l = 7 then 11 else 0

/-- The semantics of the test's `callback_2`: observes `(13, 17, 19, 23)`
and returns `29`. -/
def callback_2 : TargetFn := fun c m w l =>
  if c = 13 ∧ m = 17 ∧ w = 19 ∧ l = 23 then 29 else 0

/-- A concrete code table: `callback_1` lives at address `100`, `callback_2`
at address `200`, and no function lives anywhere else (in particular not at
the null address). -/
def tableW : CodeTable := fun a =>
  if a = 100 then some callback_1 else if a = 200 then some callback_2 else none

/-- An initial state whose provider will hand out block `5`. -/
def sAlloc5 : SysState := ⟨[5], [], 0, [], []⟩

/-- An initial state whose provider fails the next allocation. -/
def sAllocFail : SysState := ⟨[0], [], 0, [], []⟩

/-- The concrete handle owning block `5`. -/
def thunk5 : AtlThunk := ⟨⟨5, by decide⟩⟩

/-- The state after `try_new` on `sAlloc5`: block `5` allocated, unbound. -/
def sAllocated5 : SysState := ⟨[], [(5, none)], 1, [], []⟩

/-- The state after `try_new_with 100 ⟨2⟩` on `sAlloc5`: block `5` bound to
`callback_1`'s address with constant `2`. -/
def sBound1 : SysState := ⟨[], [(5, some ⟨100, 2⟩)], 1, [(5, ⟨100, 2⟩)], []⟩

/-- The state after `try_new_with 0 ⟨2⟩` on `sAlloc5`: block `5` bound to
the null target with constant `2`. -/
def sBoundNull : SysState := ⟨[], [(5, some ⟨0, 2⟩)], 1, [(5, ⟨0, 2⟩)], []⟩

/-- The state after a failed `try_new` on `sAllocFail`. -/
def sFailAfter : SysState := ⟨[], [], 1, [], []⟩

/- ### Helper lemmas -/

theorem lookupBlock_append_self (bs : List (Addr × Option ThunkBinding)) (p : Addr)
    (c : Option ThunkBinding) :
    lookupBlock (bs ++ [(p, c)]) p = some ((lookupBlock bs p).getD c) := by
  induction bs with
  | nil => simp [lookupBlock]
  | cons e rest ih =>
    by_cases h : e.1 = p <;> simp [lookupBlock, h, ih]

theorem lookupBlock_updateBlock_self (bs : List (Addr × Option ThunkBinding)) (p : Addr)
    (b : ThunkBinding) :
    lookupBlock (updateBlock bs p b) p = (lookupBlock bs p).map (fun _ => some b) := by
  induction bs with
  | nil => simp [lookupBlock, updateBlock]
  | cons e rest ih =>
    by_cases h : e.1 = p
    · simp [lookupBlock, updateBlock, h]
    · simp only [lookupBlock, updateBlock, List.map_cons, if_neg h]
      simpa [updateBlock] using ih

theorem updateBlock_keys (bs : List (Addr × Option ThunkBinding)) (p : Addr)
    (b : ThunkBinding) :
    (updateBlock bs p b).map Prod.fst = bs.map Prod.fst := by
  induction bs with
  | nil => rfl
  | cons e rest ih =>
    by_cases h : e.1 = p
    · simp only [updateBlock, List.map_cons, if_pos h]
      simpa [updateBlock] using ih
    · simp only [updateBlock, List.map_cons, if_neg h]
      simpa [updateBlock] using ih

theorem allocateData_null_blocks (s : SysState) (h : (AtlThunk_AllocateData s).1 = 0) :
    (AtlThunk_AllocateData s).2.blocks = s.blocks := by
  unfold AtlThunk_AllocateData at *
  cases hplan : s.allocPlan with
  | nil => rfl
  | cons p rest =>
    simp only [hplan] at h ⊢
    by_cases hp : p = 0 <;> simp [hp] at h ⊢

theorem allocateData_ok_blocks (s : SysState) (h : (AtlThunk_AllocateData s).1 ≠ 0) :
    (AtlThunk_AllocateData s).2.blocks = s.blocks ++ [((AtlThunk_AllocateData s).1, none)] := by
  unfold AtlThunk_AllocateData at *
  cases hplan : s.allocPlan with
  | nil => simp [hplan] at h
  | cons p rest =>
    simp only [hplan] at h ⊢
    by_cases hp : p = 0 <;> simp [hp] at h ⊢

theorem as_window_procedure_eq (t : AtlThunk) :
    t.as_window_procedure = ⟨t.raw_thunk_ptr.addr⟩ := by
  simp [AtlThunk.as_window_procedure, AtlThunk_DataToCode, unwrapUnchecked,
    t.raw_thunk_ptr.nonnull]

/- ### Claim theorems -/

/-- C5: Release of a handle's executable block happens exactly once, at drop:
`Drop::drop` appends exactly one `AtlThunk_FreeData` call with the handle's
block pointer to the free log, while `set_data`, `as_window_procedure`,
`try_new` and `try_new_with` never call `AtlThunk_FreeData` (the free log is
unchanged by each of them; `as_window_procedure` does not touch the state at
all). -/
theorem c5_drop_frees_exactly_once :
    (∀ (t : AtlThunk) (s : SysState),
      (AtlThunk.drop t s).freedLog = s.freedLog ++ [t.raw_thunk_ptr.addr]) ∧
    (∀ (t : AtlThunk) (wp : WindowProcedure) (fp : HWND) (s : SysState),
      (AtlThunk.set_data t wp fp s).2.freedLog = s.freedLog) ∧
    (∀ (s : SysState), (AtlThunk.try_new s).2.freedLog = s.freedLog) ∧
    (∀ (wp : WindowProcedure) (fp : HWND) (s : SysState),
      (AtlThunk.try_new_with wp fp s).2.freedLog = s.freedLog) := by
  refine ⟨fun t s => rfl, fun t wp fp s => rfl, fun s => ?_, fun wp fp s => ?_⟩
  · unfold AtlThunk.try_new AtlThunk_AllocateData nonNullNew
    cases hplan : s.allocPlan with
    | nil => simp
    | cons p rest => by_cases hp : p = 0 <;> simp [hp]
  · unfold AtlThunk.try_new_with
    have hnew : ∀ (s : SysState), (AtlThunk.try_new s).2.freedLog = s.freedLog := by
      intro s
      unfold AtlThunk.try_new AtlThunk_AllocateData nonNullNew
      cases hplan : s.allocPlan with
      | nil => simp
      | cons p rest => by_cases hp : p = 0 <;> simp [hp]
    cases hmatch : AtlThunk.try_new s with
    | mk r s1 =>
      cases r with
      | ok thunk =>
        simp only [hmatch]
        have := hnew s
        rw [hmatch] at this
        simpa [AtlThunk.set_data, AtlThunk_InitData] using this
      | error e =>
        simp only [hmatch]
        have := hnew s
        rw [hmatch] at this
        exact this

/-- C6: For every allocated handle the underlying `AtlThunk_DataToCode`
result is `some` (the handle's pointer is non-null by the `NonNull`
invariant), so the `unwrap_unchecked` in `as_window_procedure` never hits
the `none` branch and `as_window_procedure` returns the block's entry
pointer — with no requirement that the handle was ever bound. -/
theorem c6_data_to_code_always_some :
    ∀ (t : AtlThunk),
      AtlThunk_DataToCode t.raw_thunk_ptr.addr = some ⟨t.raw_thunk_ptr.addr⟩ ∧
      (AtlThunk_DataToCode t.raw_thunk_ptr.addr).isSome = true ∧
      t.as_window_procedure = ⟨t.raw_thunk_ptr.addr⟩ := by
  intro t
  have h := t.raw_thunk_ptr.nonnull
  refine ⟨?_, ?_, as_window_procedure_eq t⟩ <;>
    simp [AtlThunk_DataToCode, h]

/-- C7: `set_data` passes the bound constant to the encoder as the
pointer-width unsigned integer with the identical bit pattern: the
`HWND → usize` transmute is the identity on bits, and the `AtlThunk_InitData`
call receives exactly `first_parameter.bits` — no truncation or sign
adjustment, for every bit pattern. -/
theorem c7_first_parameter_bit_pattern :
    ∀ (t : AtlThunk) (wp : WindowProcedure) (fp : HWND) (s : SysState),
      transmuteHwndToUsize fp = fp.bits ∧
      (AtlThunk.set_data t wp fp s).2.initLog =
        s.initLog ++ [(t.raw_thunk_ptr.addr, ⟨transmuteProcToPtr wp, fp.bits⟩)] := by
  intro t wp fp s
  exact ⟨rfl, rfl⟩

/-- C9: The block address is stable: `set_data` leaves the handle's
`raw_thunk_ptr` unchanged and preserves the address of every live block
(it only overwrites bindings in place), and `as_window_procedure` is a pure
read, so the entry pointer obtained before a rebind equals the one obtained
afterwards. -/
theorem c9_block_address_stable :
    ∀ (t : AtlThunk) (wp : WindowProcedure) (fp : HWND) (s : SysState),
      (AtlThunk.set_data t wp fp s).1 = t ∧
      ((AtlThunk.set_data t wp fp s).1).raw_thunk_ptr.addr = t.raw_thunk_ptr.addr ∧
      ((AtlThunk.set_data t wp fp s).1).as_window_procedure = t.as_window_procedure ∧
      blockAddrs (AtlThunk.set_data t wp fp s).2 = blockAddrs s := by
  intro t wp fp s
  refine ⟨rfl, rfl, rfl, ?_⟩
  simp [blockAddrs, AtlThunk.set_data, AtlThunk_InitData, updateBlock_keys]

/-- C4: `try_new` returns an error exactly when `AtlThunk_AllocateData`
returns a null block pointer; in that case the error is
`Error::from_thread()`, returned synchronously, and no partial state is
observable: the live blocks are exactly those before the call and no handle
is produced. -/
theorem c4_try_new_error_iff_null :
    ∀ (s : SysState),
      ((AtlThunk.try_new s).1 = Except.error WinError.fromThread ↔
        (AtlThunk_AllocateData s).1 = 0) ∧
      ((AtlThunk_AllocateData s).1 = 0 →
        (AtlThunk.try_new s).2.blocks = s.blocks) := by
  intro s
  constructor
  · by_cases h : (AtlThunk_AllocateData s).1 = 0 <;>
      simp [AtlThunk.try_new, nonNullNew, h]
  · intro h
    have hb := allocateData_null_blocks s h
    simp [AtlThunk.try_new, nonNullNew, h, hb]

/-- C3: `try_new_with` is atomic from the caller's perspective: on success
the returned handle's block is live and already bound to the requested
(target, constant) pair, while on failure the error is the allocation error
and the set of live blocks is unchanged (no block is leaked or retained);
the binding step itself (`set_data`) is a total function, so it never fails
on a valid block. -/
theorem c3_try_new_with_atomic :
    (∀ (wp : WindowProcedure) (fp : HWND) (s s' : SysState) (t : AtlThunk),
      AtlThunk.try_new_with wp fp s = (Except.ok t, s') →
      lookupBlock s'.blocks t.raw_thunk_ptr.addr =
        some (some ⟨transmuteProcToPtr wp, transmuteHwndToUsize fp⟩)) ∧
    (∀ (wp : WindowProcedure) (fp : HWND) (s s' : SysState) (e : WinError),
      AtlThunk.try_new_with wp fp s = (Except.error e, s') →
      e = WinError.fromThread ∧ s'.blocks = s.blocks) := by
  constructor
  · intro wp fp s s' t hok
    by_cases h : (AtlThunk_AllocateData s).1 = 0
    · simp [AtlThunk.try_new_with, AtlThunk.try_new, nonNullNew, h] at hok
    · simp [AtlThunk.try_new_with, AtlThunk.try_new, nonNullNew, h,
        AtlThunk.set_data] at hok
      obtain ⟨ht, hs⟩ := hok
      subst ht
      subst hs
      have hblocks := allocateData_ok_blocks s h
      simp [AtlThunk_InitData, hblocks, lookupBlock_updateBlock_self,
        lookupBlock_append_self]
  · intro wp fp s s' e herr
    by_cases h : (AtlThunk_AllocateData s).1 = 0
    · have hb := allocateData_null_blocks s h
      simp [AtlThunk.try_new_with, AtlThunk.try_new, nonNullNew, h] at herr
      subst herr
      exact ⟨by cases e; rfl, hb⟩
    · simp [AtlThunk.try_new_with, AtlThunk.try_new, nonNullNew, h,
        AtlThunk.set_data] at herr

/-- C10: Every `AtlThunk` value holds a non-null block pointer (the
`NonNull` field invariant); `try_new` produces a handle only when the
allocation primitive returns a non-null pointer, and that pointer becomes
the handle's; `set_data` passes the handle's (non-null) pointer to
`AtlThunk_InitData` and drop passes it to `AtlThunk_FreeData`, so no
operation ever hands a null thunk pointer to the underlying primitives. -/
theorem c10_nonnull_invariant :
    (∀ (t : AtlThunk), t.raw_thunk_ptr.addr ≠ 0) ∧
    (∀ (s s' : SysState) (t : AtlThunk),
      AtlThunk.try_new s = (Except.ok t, s') →
      t.raw_thunk_ptr.addr = (AtlThunk_AllocateData s).1 ∧
        (AtlThunk_AllocateData s).1 ≠ 0) ∧
    (∀ (t : AtlThunk) (wp : WindowProcedure) (fp : HWND) (s : SysState),
      (AtlThunk.set_data t wp fp s).2.initLog =
        s.initLog ++ [(t.raw_thunk_ptr.addr,
          ⟨transmuteProcToPtr wp, transmuteHwndToUsize fp⟩)] ∧
      t.raw_thunk_ptr.addr ≠ 0) ∧
    (∀ (t : AtlThunk) (s : SysState),
      (AtlThunk.drop t s).freedLog = s.freedLog ++ [t.raw_thunk_ptr.addr] ∧
      t.raw_thunk_ptr.addr ≠ 0) := by
  refine ⟨fun t => t.raw_thunk_ptr.nonnull, ?_,
    fun t wp fp s => ⟨rfl, t.raw_thunk_ptr.nonnull⟩,
    fun t s => ⟨rfl, t.raw_thunk_ptr.nonnull⟩⟩
  intro s s' t hok
  by_cases h : (AtlThunk_AllocateData s).1 = 0
  · simp [AtlThunk.try_new, nonNullNew, h] at hok
  · simp [AtlThunk.try_new, nonNullNew, h] at hok
    obtain ⟨ht, -⟩ := hok
    subst ht
    exact ⟨rfl, h⟩

/-- C1: Round-trip binding: after `try_new_with(target, constant)` succeeds,
or after `set_data(target, constant)` on a handle with a live block,
invoking the function pointer returned by `as_window_procedure` with any
trailing arguments `(message, w, l)` calls the target with the bound
constant as its leading parameter and the trailing arguments unchanged, and
returns exactly the target's return value. -/
theorem c1_round_trip :
    (∀ (table : CodeTable) (wp : WindowProcedure) (fp : HWND) (s s' : SysState)
        (t : AtlThunk) (f : TargetFn) (hwnd : HWND) (message wParam : Nat) (lParam : Int),
        AtlThunk.try_new_with wp fp s = (Except.ok t, s') →
        table wp = some f →
        invokeEntry table s' t.as_window_procedure hwnd message wParam lParam =
          some (f (transmuteHwndToUsize fp) message wParam lParam)) ∧
    (∀ (table : CodeTable) (wp : WindowProcedure) (fp : HWND) (s : SysState)
        (t : AtlThunk) (b : Option ThunkBinding) (f : TargetFn) (hwnd : HWND)
        (message wParam : Nat) (lParam : Int),
        lookupBlock s.blocks t.raw_thunk_ptr.addr = some b →
        table wp = some f →
        invokeEntry table (AtlThunk.set_data t wp fp s).2
            ((AtlThunk.set_data t wp fp s).1).as_window_procedure hwnd message wParam lParam =
          some (f (transmuteHwndToUsize fp) message wParam lParam)) := by
  constructor
  · intro table wp fp s s' t f hwnd message wParam lParam hok htab
    by_cases h : (AtlThunk_AllocateData s).1 = 0
    · simp [AtlThunk.try_new_with, AtlThunk.try_new, nonNullNew, h] at hok
    · simp [AtlThunk.try_new_with, AtlThunk.try_new, nonNullNew, h,
        AtlThunk.set_data] at hok
      obtain ⟨ht, hs⟩ := hok
      subst ht
      subst hs
      have hblocks := allocateData_ok_blocks s h
      simp [invokeEntry, as_window_procedure_eq, AtlThunk_InitData, hblocks,
        transmuteProcToPtr, lookupBlock_updateBlock_self,
        lookupBlock_append_self, htab]
  · intro table wp fp s t b f hwnd message wParam lParam hlook htab
    simp [invokeEntry, as_window_procedure_eq, AtlThunk.set_data,
      AtlThunk_InitData, transmuteProcToPtr, lookupBlock_updateBlock_self,
      hlook, htab]

/-- C2: Rebinding overwrites in full: for a handle whose block is live,
binding `(target_A, constant_A)` and then `set_data(target_B, constant_B)`
always succeeds with no allocation cost (the allocation counter is
untouched), leaves the block bound to exactly `(target_B, constant_B)` — no
mix of the A and B fields — and every subsequent invocation of the entry
pointer reaches only `target_B` with `constant_B`. -/
theorem c2_rebind_overwrites :
    ∀ (t : AtlThunk) (s : SysState) (b : Option ThunkBinding)
      (tA : WindowProcedure) (cA : HWND) (tB : WindowProcedure) (cB : HWND),
      lookupBlock s.blocks t.raw_thunk_ptr.addr = some b →
      ((((AtlThunk.set_data t tA cA s).1).set_data tB cB
          (AtlThunk.set_data t tA cA s).2).2.allocCalls = s.allocCalls ∧
       lookupBlock (((AtlThunk.set_data t tA cA s).1).set_data tB cB
           (AtlThunk.set_data t tA cA s).2).2.blocks t.raw_thunk_ptr.addr =
         some (some ⟨transmuteProcToPtr tB, transmuteHwndToUsize cB⟩) ∧
       ∀ (table : CodeTable) (f : TargetFn) (hwnd : HWND) (message wParam : Nat)
         (lParam : Int),
         table tB = some f →
         invokeEntry table (((AtlThunk.set_data t tA cA s).1).set_data tB cB
             (AtlThunk.set_data t tA cA s).2).2
             ((((AtlThunk.set_data t tA cA s).1).set_data tB cB
               (AtlThunk.set_data t tA cA s).2).1).as_window_procedure
             hwnd message wParam lParam =
           some (f (transmuteHwndToUsize cB) message wParam lParam)) := by
  intro t s b tA cA tB cB hlook
  refine ⟨rfl, ?_, ?_⟩
  · simp [AtlThunk.set_data, AtlThunk_InitData, lookupBlock_updateBlock_self, hlook]
  · intro table f hwnd message wParam lParam htab
    simp [invokeEntry, as_window_procedure_eq, AtlThunk.set_data,
      AtlThunk_InitData, transmuteProcToPtr, lookupBlock_updateBlock_self,
      hlook, htab]

/-- C8 counterexample: the claim's "binding a null target via `set_data` or
`try_new_with` is permitted by the operation's input domain" is false at the
concrete input `0`: the parameter type of those operations is the Rust
`WindowProcedure` function-pointer type (src/lib.rs line 44), whose values
are exactly the non-null addresses, and the null address is not among
them. -/
theorem c8_null_target_counterexample : ¬ rustWindowProcedureDomain 0 :=
  fun h => h rfl

/-- C8 (amended): the encoder primitive `AtlThunk_InitData` accepts a null
target address structurally — given a live block it stores the
`(0, constant)` binding without failing — and invoking a trampoline bound
to the null target is a fatal fault, not a recoverable error; but the
wrapper's `set_data` and `try_new_with` take the non-null Rust
`WindowProcedure` type, so every binding made through the wrapper carries a
non-null target. -/
theorem c8_null_target_amended :
    (∀ (p : Addr) (fp : Nat) (s : SysState) (b : Option ThunkBinding),
      lookupBlock s.blocks p = some b →
      lookupBlock (AtlThunk_InitData p 0 fp s).blocks p = some (some ⟨0, fp⟩)) ∧
    (∀ (t : AtlThunk) (wp : WindowProcedure) (fp : HWND) (s : SysState)
        (b : Option ThunkBinding),
      rustWindowProcedureDomain wp →
      lookupBlock s.blocks t.raw_thunk_ptr.addr = some b →
      lookupBlock (AtlThunk.set_data t wp fp s).2.blocks t.raw_thunk_ptr.addr =
        some (some ⟨transmuteProcToPtr wp, transmuteHwndToUsize fp⟩) ∧
      transmuteProcToPtr wp ≠ 0) ∧
    (∀ (table : CodeTable) (s : SysState) (e : EntryPointer) (fp : Nat)
        (hwnd : HWND) (message wParam : Nat) (lParam : Int),
      validCodeTable table →
      lookupBlock s.blocks e.code = some (some ⟨0, fp⟩) →
      invokeEntry table s e hwnd message wParam lParam = none) := by
  refine ⟨?_, ?_, ?_⟩
  · intro p fp s b hlook
    simp [AtlThunk_InitData, lookupBlock_updateBlock_self, hlook]
  · intro t wp fp s b hdom hlook
    refine ⟨?_, hdom⟩
    simp [AtlThunk.set_data, AtlThunk_InitData, lookupBlock_updateBlock_self,
      hlook]
  · intro table s e fp hwnd message wParam lParam hvalid hlook
    have h0 : table 0 = none := hvalid
    simp [invokeEntry, hlook, h0]

/- ### Witnesses -/

/-- Witness for C1: the test scenario: `try_new_with(callback_1, 2)` then
invoking the entry pointer with `(3, 5, 7)` yields `11`. -/
theorem c1_round_trip_witness :
    AtlThunk.try_new_with 100 ⟨2⟩ sAlloc5 = (Except.ok thunk5, sBound1) ∧
    tableW 100 = some callback_1 ∧
    invokeEntry tableW sBound1 thunk5.as_window_procedure ⟨0⟩ 3 5 7 = some 11 := by
  refine ⟨rfl, rfl, ?_⟩
  have h := c1_round_trip.1 tableW 100 ⟨2⟩ sAlloc5 sBound1 thunk5 callback_1
    ⟨0⟩ 3 5 7 rfl rfl
  simpa [callback_1, transmuteHwndToUsize] using h

/-- Witness for C2: rebinding block `5` from `(100, 2)` to
`(callback_2 = 200, 13)` and invoking with `(17, 19, 23)` yields `29`. -/
theorem c2_rebind_overwrites_witness :
    lookupBlock sBound1.blocks thunk5.raw_thunk_ptr.addr = some (some ⟨100, 2⟩) ∧
    lookupBlock (((AtlThunk.set_data thunk5 100 ⟨2⟩ sBound1).1).set_data 200 ⟨13⟩
        (AtlThunk.set_data thunk5 100 ⟨2⟩ sBound1).2).2.blocks
      thunk5.raw_thunk_ptr.addr = some (some ⟨200, 13⟩) ∧
    invokeEntry tableW (((AtlThunk.set_data thunk5 100 ⟨2⟩ sBound1).1).set_data 200 ⟨13⟩
        (AtlThunk.set_data thunk5 100 ⟨2⟩ sBound1).2).2
      ((((AtlThunk.set_data thunk5 100 ⟨2⟩ sBound1).1).set_data 200 ⟨13⟩
        (AtlThunk.set_data thunk5 100 ⟨2⟩ sBound1).2).1).as_window_procedure
      ⟨0⟩ 17 19 23 = some 29 := by
  refine ⟨rfl, ?_, ?_⟩
  · exact (c2_rebind_overwrites thunk5 sBound1 (some ⟨100, 2⟩) 100 ⟨2⟩ 200 ⟨13⟩
      rfl).2.1
  · have h := (c2_rebind_overwrites thunk5 sBound1 (some ⟨100, 2⟩) 100 ⟨2⟩ 200 ⟨13⟩
      rfl).2.2 tableW callback_2 ⟨0⟩ 17 19 23 rfl
    simpa [callback_2, transmuteHwndToUsize] using h

/-- Witness for C3: on plan `[5]` creation succeeds with block `5` bound to
`(100, 2)`; on a failing provider it yields the allocation error with the
block set unchanged. -/
theorem c3_try_new_with_atomic_witness :
    AtlThunk.try_new_with 100 ⟨2⟩ sAlloc5 = (Except.ok thunk5, sBound1) ∧
    lookupBlock sBound1.blocks thunk5.raw_thunk_ptr.addr = some (some ⟨100, 2⟩) ∧
    AtlThunk.try_new_with 100 ⟨2⟩ sAllocFail =
      (Except.error WinError.fromThread, sFailAfter) ∧
    sFailAfter.blocks = sAllocFail.blocks :=
  ⟨rfl, c3_try_new_with_atomic.1 100 ⟨2⟩ sAlloc5 sBound1 thunk5 rfl, rfl,
   (c3_try_new_with_atomic.2 100 ⟨2⟩ sAllocFail sFailAfter WinError.fromThread rfl).2⟩

/-- Witness for C4: on a failing provider the allocation primitive returns
null, `try_new` returns `Error::from_thread()` and the block set is
unchanged. -/
theorem c4_try_new_error_iff_null_witness :
    (AtlThunk_AllocateData sAllocFail).1 = 0 ∧
    (AtlThunk.try_new sAllocFail).1 = Except.error WinError.fromThread ∧
    (AtlThunk.try_new sAllocFail).2.blocks = sAllocFail.blocks :=
  ⟨rfl, (c4_try_new_error_iff_null sAllocFail).1.mpr rfl,
   (c4_try_new_error_iff_null sAllocFail).2 rfl⟩

/-- Witness for C8 (amended): the encoder primitive stores `(0, 2)` on the
live block `5` directly; `set_data` with the in-domain target `100` stores
the non-null binding `(100, 2)`; invoking the null-bound block `5` under
the valid code table faults. -/
theorem c8_null_target_amended_witness :
    lookupBlock sBound1.blocks 5 = some (some ⟨100, 2⟩) ∧
    lookupBlock (AtlThunk_InitData 5 0 2 sBound1).blocks 5 = some (some ⟨0, 2⟩) ∧
    rustWindowProcedureDomain 100 ∧
    lookupBlock (AtlThunk.set_data thunk5 100 ⟨2⟩ sBound1).2.blocks
      thunk5.raw_thunk_ptr.addr = some (some ⟨100, 2⟩) ∧
    validCodeTable tableW ∧
    invokeEntry tableW sBoundNull ⟨5⟩ ⟨0⟩ 3 5 7 = none := by
  have hvalid : validCodeTable tableW := by simp [validCodeTable, tableW]
  have hdom : rustWindowProcedureDomain 100 := by
    intro h
    exact absurd h (by decide)
  exact ⟨rfl, c8_null_target_amended.1 5 2 sBound1 (some ⟨100, 2⟩) rfl, hdom,
    (c8_null_target_amended.2.1 thunk5 100 ⟨2⟩ sBound1 (some ⟨100, 2⟩) hdom rfl).1,
    hvalid,
    c8_null_target_amended.2.2 tableW sBoundNull ⟨5⟩ 2 ⟨0⟩ 3 5 7 hvalid rfl⟩

/-- Witness for C10: a successful `try_new` on plan `[5]` yields the handle
whose pointer is the provider's non-null result `5`. -/
theorem c10_nonnull_invariant_witness :
    AtlThunk.try_new sAlloc5 = (Except.ok thunk5, sAllocated5) ∧
    thunk5.raw_thunk_ptr.addr = (AtlThunk_AllocateData sAlloc5).1 ∧
    (AtlThunk_AllocateData sAlloc5).1 ≠ 0 :=
  ⟨rfl, (c10_nonnull_invariant.2.1 sAlloc5 sAllocated5 thunk5 rfl).1,
   (c10_nonnull_invariant.2.1 sAlloc5 sAllocated5 thunk5 rfl).2⟩
